import Mathlib

/-!
Shallow embedding of the core of the Alpha_Grabber repository:
the request gateway (`src/alphavantage_cli/client.py`) and the response
classifier/formatter (`src/alpha_grabber/utils.py`).

Python dictionaries are modelled as insertion-ordered association lists;
machine floats used only as wall-clock timestamps are modelled as rationals;
Python exceptions raised by the client/formatter are modelled as the
`Except` error monad.
-/

/-- A decoded JSON value as it appears in an API response body:
a string, a number, a boolean, `null`, an array, or an object
(kept as an insertion-ordered association list, like a Python `dict`). -/
inductive JsonVal where
  | str : String → JsonVal
  | num : Int → JsonVal
  | boolean : Bool → JsonVal
  | null : JsonVal
  | arr : List JsonVal → JsonVal
  | dict : List (String × JsonVal) → JsonVal

/-- The decoded JSON body of an API reply: a Python `dict` mapping string
keys to JSON values, modelled as an insertion-ordered association list. -/
abbrev RawResponse := List (String × JsonVal)

/-- Python `d[k]` / `k in d` lookup on a dict: the value at the first
(and, for a real dict, only) entry whose key is `k`. -/
def dictGet (d : RawResponse) (k : String) : Option JsonVal :=
  (d.find? (fun kv => kv.1 = k)).map (fun kv => kv.2)

/-- Python `k in d` membership test on a dict. -/
def dictContains (d : RawResponse) (k : String) : Bool :=
  d.any (fun kv => kv.1 = k)

/-- Whether `pre` is a prefix of `l`, by character. -/
def isPrefixChars : List Char → List Char → Bool
  | [], _ => true
  | _ :: _, [] => false
  | a :: as, b :: bs => a = b && isPrefixChars as bs

/-- Whether `needle` occurs as a contiguous run inside `hay`. -/
def containsSub : List Char → List Char → Bool
  | _, [] => true
  | [], _ :: _ => false
  | h :: t, n :: ns => isPrefixChars (n :: ns) (h :: t) || containsSub t (n :: ns)

/-- Python's substring test `needle in hay` on strings. -/
def hasSubstr (hay needle : String) : Bool :=
  containsSub hay.toList needle.toList

/-- Python's `str.lower()`, for the ASCII texts the client compares against. -/
def lowerStr (s : String) : String :=
  (s.toList.map Char.toLower).asString

/-- The text carried by an error/notice value.  The API's `Error Message`,
`Information` and `Note` keys always carry JSON strings, which is what
`client.py` assumes when it applies `in` to them. -/
def msgText : JsonVal → String
  | .str s => s
  | _ => ""

/-- The exception taxonomy of `exceptions.py`, as a tagged value carrying the
human-readable message: `APIKeyError`, `RateLimitError`, `InvalidSymbolError`,
`NetworkError`, `DataFormatError`, and the
generic base `AlphaVantageError` used as the catch-all API failure. -/
inductive ApiError where
  | alphaVantageError : String → ApiError
  | apiKeyError : String → ApiError
  | rateLimitError : String → ApiError
  | invalidSymbolError : String → ApiError
  | networkError : String → ApiError
  | dataFormatError : String → ApiError
deriving DecidableEq, Repr

/-- The `Error Message` branch of `AlphaVantageClient._check_api_errors`:
`InvalidSymbolError` when the text contains `"Invalid API call"`, otherwise
the generic `AlphaVantageError`. -/
def classifyErrorMessage (error_msg : String) : ApiError :=
  if hasSubstr error_msg "Invalid API call" then
    ApiError.invalidSymbolError error_msg
  else
    ApiError.alphaVantageError error_msg

/-- The `Information` branch of `AlphaVantageClient._check_api_errors`:
`APIKeyError` when the text contains `"API key"`, else a premium-feature
`AlphaVantageError` when it contains `"premium"` or `"subscription"`
case-insensitively, else the generic `AlphaVantageError`. -/
def classifyInformation (info_msg : String) : ApiError :=
  if hasSubstr info_msg "API key" then
    ApiError.apiKeyError info_msg
  else if hasSubstr  (lowerStr info_msg) "premium" || hasSubstr  (lowerStr info_msg) "subscription" then
    ApiError.alphaVantageError ("Premium feature required: " ++ info_msg)
  else
    ApiError.alphaVantageError info_msg

/-- The `Note` branch of `AlphaVantageClient._check_api_errors`:
`RateLimitError` when the text contains `"rate limit"` or `"frequent"`
case-insensitively, otherwise the generic `AlphaVantageError`. -/
def classifyNote (note_msg : String) : ApiError :=
  if hasSubstr  (lowerStr note_msg) "rate limit" || hasSubstr  (lowerStr note_msg) "frequent" then
    ApiError.rateLimitError note_msg
  else
    ApiError.alphaVantageError note_msg

/-- `AlphaVantageClient._check_api_errors`: inspect the parsed body for the
keys `Error Message`, `Information`, `Note`, in that order, and raise the
classified exception for the first one present; succeed if none is present. -/
def check_api_errors (data : RawResponse) : Except ApiError Unit :=
  match dictGet data "Error Message" with
  | some v => Except.error (classifyErrorMessage (msgText v))
  | none =>
    match dictGet data "Information" with
    | some v => Except.error (classifyInformation (msgText v))
    | none =>
      match dictGet data "Note" with
      | some v => Except.error (classifyNote (msgText v))
      | none => Except.ok ()

/-- The tail of `AlphaVantageClient._make_request` applied to a successfully
parsed JSON body: run `_check_api_errors` on it and, if that does not raise,
return the body itself unchanged. -/
def process_body (data : RawResponse) : Except ApiError RawResponse :=
  match check_api_errors data with
  | Except.ok _ => Except.ok data
  | Except.error e => Except.error e

/-- The mutable state of an `AlphaVantageClient` relevant to `_make_request`:
the resolved API key, the configured `rate_limit_delay`, and the
`_last_request_time` timestamp (wall-clock seconds, modelled as rationals). -/
structure ClientState where
  api_key : String
  rate_limit_delay : ℚ
  last_request_time : ℚ

/-- The sleep duration chosen by `AlphaVantageClient._rate_limit` when the
first `time.time()` call reads `t1`: sleep `rate_limit_delay - (t1 - last)`
if less than `rate_limit_delay` has elapsed since `last`, else do not sleep. -/
def rate_limit_sleep (delay last t1 : ℚ) : ℚ :=
  if t1 - last < delay then delay - (t1 - last) else 0

/-- What the HTTP transport layer delivered for one dispatched request:
a timeout, a connection error, a non-2xx HTTP status, a 2xx reply whose body
is not valid JSON, or a 2xx reply with a parsed JSON body. -/
inductive Transport where
  | timeout : Transport
  | connectionError : Transport
  | httpError : Nat → Transport
  | invalidJson : Transport
  | body : RawResponse → Transport

/-- The `try`/`except` tail of `AlphaVantageClient._make_request`: translate
transport faults (timeout, connection error, HTTP status 401/429/other) into
exceptions, reject unparseable bodies, and run `_check_api_errors` on a
parsed body, returning it unchanged when no error key is present. -/
def handle_response : Transport → Except ApiError RawResponse
  | Transport.timeout => Except.error (ApiError.networkError "Request timed out")
  | Transport.connectionError => Except.error (ApiError.networkError "Connection error")
  | Transport.httpError code =>
    if code = 401 then Except.error (ApiError.apiKeyError "Invalid API key")
    else if code = 429 then Except.error (ApiError.rateLimitError "Rate limit exceeded")
    else Except.error (ApiError.networkError ("HTTP error " ++ toString code))
  | Transport.invalidJson => Except.error (ApiError.alphaVantageError "Invalid JSON response")
  | Transport.body data => process_body data

/-- Python `d[k] = v` on a string-valued dict (an insertion-ordered
association list): overwrite the value in place if the key is present,
otherwise append the new entry at the end. -/
def dictSet (d : List (String × String)) (k v : String) : List (String × String) :=
  if d.any (fun kv => kv.1 = k) then
    d.map (fun kv => if kv.1 = k then (kv.1, v) else kv)
  else
    d ++ [(k, v)]

/-- The parameter dict actually dispatched by `_make_request`:
`params = params.copy(); params["apikey"] = self.api_key`.  The copy means
the caller's dict is untouched; the model is a pure function of it. -/
def dispatched_params (st : ClientState) (params : List (String × String)) :
    List (String × String) :=
  dictSet params "apikey" st.api_key

/-- One call of `AlphaVantageClient._make_request` as a pure transition.
`t2` is the second clock reading inside `_rate_limit`, taken after the
optional sleep and stored into `_last_request_time` before the HTTP dispatch
(the first reading `t1` constrains `t2` through `rate_limit_sleep` in the
theorems); `tr` is what the transport then delivered.  The result is
(new client state, dispatched parameter dict, returned body or raised
exception). -/
def make_request (st : ClientState) (params : List (String × String))
    (t2 : ℚ) (tr : Transport) :
    ClientState × List (String × String) × Except ApiError RawResponse :=
  ({ st with last_request_time := t2 }, dispatched_params st params, handle_response tr)

/-- Python's `isinstance(value, dict)` on a JSON value. -/
def isDict : JsonVal → Bool
  | JsonVal.dict _ => true
  | _ => false

/-- The key test of `is_time_series_data`: the key contains a `-`, `/`
or `:` character, or has length at least 8 (minimum date length). -/
def looksLikeDateKey (key : String) : Bool :=
  key.toList.contains '-' || key.toList.contains '/' || key.toList.contains ':' ||
    decide (8 ≤ key.length)

/-- `is_time_series_data` from `utils.py`: every value is itself a dict and
every corresponding key looks like a date/timestamp; an empty dict passes
(the loop body never runs). -/
def is_time_series_data (data : RawResponse) : Bool :=
  data.all (fun kv => isDict kv.2 && looksLikeDateKey kv.1)

/-- `is_flat_dict` from `utils.py`: no value is itself a dict. -/
def is_flat_dict (data : RawResponse) : Bool :=
  data.all (fun kv => !isDict kv.2)

/-- Join a list of strings with a separator. -/
def joinSep (sep : String) : List String → String
  | [] => ""
  | [x] => x
  | x :: xs => x ++ sep ++ joinSep sep xs

mutual

/-- Python's `repr` of a JSON value, the text pandas puts in a cell holding a
non-scalar: strings in single quotes, `True`/`False`/`None`, lists in
brackets, dicts in braces with `'key': value` entries. -/
def toPyText : JsonVal → String
  | JsonVal.str s => "'" ++ s ++ "'"
  | JsonVal.num n => toString n
  | JsonVal.boolean b => if b then "True" else "False"
  | JsonVal.null => "None"
  | JsonVal.arr xs => "[" ++ joinSep ", " (toPyTextList xs) ++ "]"
  | JsonVal.dict kvs => "\x7b" ++ joinSep ", " (toPyTextPairs kvs) ++ "\x7d"

/-- `toPyText` mapped over the elements of a JSON array. -/
def toPyTextList : List JsonVal → List String
  | [] => []
  | x :: xs => toPyText x :: toPyTextList xs

/-- `'key': value` renderings of the entries of a JSON object. -/
def toPyTextPairs : List (String × JsonVal) → List String
  | [] => []
  | (k, v) :: kvs => ("'" ++ k ++ "': " ++ toPyText v) :: toPyTextPairs kvs

end

/-- The text a DataFrame cell holding this value contributes to `to_csv`
output: strings verbatim, numbers and booleans via Python `str`, missing
values (`NaN`) empty, non-scalars via their `repr`. -/
def cellText : JsonVal → String
  | JsonVal.str s => s
  | JsonVal.num n => toString n
  | JsonVal.boolean b => if b then "True" else "False"
  | JsonVal.null => ""
  | JsonVal.arr xs => toPyText (JsonVal.arr xs)
  | JsonVal.dict kvs => toPyText (JsonVal.dict kvs)

/-- The inner record of one time-series row.  `time_series_to_csv` is reached
only from `convert_to_csv` after `is_time_series_data` held, so every value
it sees is a `dict`. -/
def innerDict : JsonVal → RawResponse
  | JsonVal.dict l => l
  | _ => []

/-- Extend a column list with keys not yet present, keeping first-appearance
order. -/
def insertNewCols (acc : List String) (ks : List String) : List String :=
  ks.foldl (fun a k => if a.contains k then a else a ++ [k]) acc

/-- Column order produced by `pd.DataFrame.from_dict(data, orient="index")`:
the union of the inner records' keys, in order of first appearance. -/
def unionCols (data : RawResponse) : List String :=
  data.foldl (fun acc kv => insertNewCols acc ((innerDict kv.2).map (fun p => p.1))) []

/-- Insert one (date, record) row into a list already sorted by key in
descending lexicographic string order. -/
def insertDescByKey (x : String × JsonVal) :
    List (String × JsonVal) → List (String × JsonVal)
  | [] => [x]
  | y :: ys => if y.1 < x.1 then x :: y :: ys else y :: insertDescByKey x ys

/-- `df.sort_values('date', ascending=False)`: descending lexicographic
string order on the outer keys.  A Python dict's keys are distinct, so the
sorted sequence is the same whatever sort pandas uses. -/
def sortDescByKey (l : List (String × JsonVal)) : List (String × JsonVal) :=
  l.foldr insertDescByKey []

/-- `csv.QUOTE_MINIMAL`, used by `DataFrame.to_csv`: a field is quoted only
when it contains the delimiter, the quote character, or a line break. -/
def needsQuote (s : String) : Bool :=
  s.toList.any (fun c => c = ',' || c = '\"' || c = '\n' || c = '\r')

/-- Double every quote character, as CSV quoting requires. -/
def escapeQuotes (cs : List Char) : List Char :=
  cs.foldr (fun c acc => if c = '\"' then '\"' :: '\"' :: acc else c :: acc) []

/-- One CSV field: the text itself, or the quoted-and-escaped text when it
contains a special character. -/
def csvCellChars (s : String) : List Char :=
  if needsQuote s then '\"' :: (escapeQuotes s.toList ++ ['\"']) else s.toList

/-- One CSV record: fields separated by commas. -/
def csvLineChars : List String → List Char
  | [] => []
  | [c] => csvCellChars c
  | c :: cs => csvCellChars c ++ ',' :: csvLineChars cs

/-- A CSV table: each record terminated by a newline, as `to_csv` emits. -/
def csvTextChars : List (List String) → List Char
  | [] => []
  | r :: rs => csvLineChars r ++ '\n' :: csvTextChars rs

/-- `DataFrame.to_csv(index=False)` on a table given as header and rows of
already-rendered fields. -/
def csvText (rows : List (List String)) : String :=
  (csvTextChars rows).asString

/-- `time_series_to_csv` from `utils.py`: build a DataFrame whose rows are
the inner records indexed by the outer keys, turn the index into a leading
`date` column, sort descending by that column's string value, and emit CSV
with a header row. -/
def time_series_to_csv (data : RawResponse) : String :=
  let cols := unionCols data
  let rows := (sortDescByKey data).map (fun kv =>
    kv.1 :: cols.map (fun c =>
      match dictGet (innerDict kv.2) c with
      | some v => cellText v
      | none => ""))
  csvText (("date" :: cols) :: rows)

/-- `flat_dict_to_csv` from `utils.py`: `pd.DataFrame([data]).to_csv(index=False)`,
a single header row of the keys and a single data row of the values, in the
dict's iteration order. -/
def flat_dict_to_csv (data : RawResponse) : String :=
  csvText [data.map (fun kv => kv.1), data.map (fun kv => cellText kv.2)]

/-- `convert_to_csv` from `utils.py`: empty dict to empty string, else the
time-series rendering, else the flat rendering, else the same
`pd.DataFrame([data])` single-row rendering used for flat dicts (non-scalar
cells then carry their `repr` text).  The conversion is total on the dict
inputs modelled here, so the `except`-and-reraise wrapper never fires. -/
def convert_to_csv (data : RawResponse) : String :=
  if data.isEmpty then ""
  else if is_time_series_data data then time_series_to_csv data
  else if is_flat_dict data then flat_dict_to_csv data
  else csvText [data.map (fun kv => kv.1), data.map (fun kv => cellText kv.2)]

/-- The formatter's result: the payload unchanged (JSON mode) or a
delimited-text string (CSV mode). -/
inductive FormattedOutput where
  | structuredData : RawResponse → FormattedOutput
  | textData : String → FormattedOutput

/-- `format_output` from `utils.py`: JSON mode returns the data unchanged,
CSV mode returns `convert_to_csv` of it, any other mode raises
`DataFormatError`. -/
def format_output (data : RawResponse) (output_format : String) :
    Except ApiError FormattedOutput :=
  if lowerStr output_format = "json" then
    Except.ok (FormattedOutput.structuredData data)
  else if lowerStr output_format = "csv" then
    Except.ok (FormattedOutput.textData (convert_to_csv data))
  else
    Except.error (ApiError.dataFormatError ("Unsupported output format: " ++ output_format))

/-- Python's regex class `\s` over ASCII: space, tab, newline, carriage
return, vertical tab, form feed. -/
def isPySpace (c : Char) : Bool :=
  c = ' ' || c = '\t' || c = '\n' || c = '\r' || c = '\x0b' || c = '\x0c'

/-- The first `str.replace` in `clean_column_names`: delete a leading
`\d+\.\s*` ordinal prefix (one or more digits, a period, optional
whitespace); leave the name unchanged when the pattern does not match. -/
def stripOrdinalPrefix (s : String) : String :=
  match s.toList.takeWhile Char.isDigit, s.toList.dropWhile Char.isDigit with
  | _ :: _, '.' :: rest => (rest.dropWhile isPySpace).asString
  | _, _ => s

/-- One step of replacing whitespace runs: the Boolean records whether the
previous character was whitespace (so a run contributes one underscore). -/
def collapseStep (acc : List Char × Bool) (c : Char) : List Char × Bool :=
  if isPySpace c then
    (if acc.2 then acc.1 else acc.1 ++ ['_'], true)
  else
    (acc.1 ++ [c], false)

/-- The second `str.replace` in `clean_column_names`: every maximal
whitespace run becomes a single underscore. -/
def collapseSpaces (s : String) : String :=
  ((s.toList.foldl collapseStep ([], false)).1).asString

/-- `clean_column_names` applied to one column label: strip the ordinal
prefix, replace whitespace runs with underscores, lowercase. -/
def clean_column_name (s : String) : String :=
  lowerStr (collapseSpaces (stripOrdinalPrefix s))

/-- `clean_column_names` from `utils.py`, acting on a DataFrame's column
labels. -/
def clean_column_names (cols : List String) : List String :=
  cols.map clean_column_name

/-- The first line of a rendered text: everything before the first newline. -/
def firstLine (s : String) : String :=
  (s.toList.takeWhile (fun c => c ≠ '\n')).asString

/-- Plain comma join of fields, with no cleanup and no quoting. -/
def joinComma : List String → String
  | [] => ""
  | [c] => c
  | c :: cs => c ++ "," ++ joinComma cs

theorem dictContains_eq_isSome (d : RawResponse) (k : String) :
    dictContains d k = (dictGet d k).isSome := by
  induction d with
  | nil => rfl
  | cons kv rest ih =>
    by_cases h : kv.1 = k
    · simp [dictContains, dictGet, List.any_cons, List.find?_cons, h]
    · simp [dictContains, dictGet, List.any_cons, List.find?_cons, h] at ih ⊢
      exact ih

/-- Claim C1: a successfully parsed body is returned unchanged as the
success value exactly when it contains none of the keys `Error Message`,
`Information`, `Note`; when at least one is present the call raises some
failure, and the body is never returned as a success. -/
theorem execute_success_iff_no_error_keys (data : RawResponse) :
    (process_body data = Except.ok data ↔
      (dictContains data "Error Message" || dictContains data "Information" ||
        dictContains data "Note") = false) ∧
    (∀ r : RawResponse, process_body data = Except.ok r → r = data) ∧
    ((dictContains data "Error Message" || dictContains data "Information" ||
        dictContains data "Note") = true →
      ∃ e : ApiError, process_body data = Except.error e) := by
  have hEM := dictContains_eq_isSome data "Error Message"
  have hIN := dictContains_eq_isSome data "Information"
  have hNT := dictContains_eq_isSome data "Note"
  cases h1 : dictGet data "Error Message" with
  | some v =>
    rw [h1] at hEM
    simp [process_body, check_api_errors, h1, hEM]
  | none =>
    rw [h1] at hEM
    cases h2 : dictGet data "Information" with
    | some v =>
      rw [h2] at hIN
      simp [process_body, check_api_errors, h1, h2, hEM, hIN]
    | none =>
      rw [h2] at hIN
      cases h3 : dictGet data "Note" with
      | some v =>
        rw [h3] at hNT
        simp [process_body, check_api_errors, h1, h2, h3, hEM, hIN, hNT]
      | none =>
        rw [h3] at hNT
        simp [process_body, check_api_errors, h1, h2, h3, hEM, hIN, hNT]

theorem execute_success_iff_no_error_keys_witness :
    process_body [("Meta Data", JsonVal.dict [])] =
      Except.ok [("Meta Data", JsonVal.dict [])] ∧
    (∃ e : ApiError, process_body [("Note", JsonVal.str "thank you")] =
      Except.error e) := by
  constructor
  · exact (execute_success_iff_no_error_keys _).1.mpr rfl
  · exact (execute_success_iff_no_error_keys _).2.2 (by decide)

/-- Claim C2: when several of the keys `Error Message`, `Information`, `Note` are
present, the raised failure is a function of the text under the first key in
that priority order alone; texts under later keys do not appear. -/
theorem error_priority_order (data : RawResponse) (m : String) :
    (dictGet data "Error Message" = some (JsonVal.str m) →
      check_api_errors data = Except.error (classifyErrorMessage m)) ∧
    (dictGet data "Error Message" = none →
      dictGet data "Information" = some (JsonVal.str m) →
      check_api_errors data = Except.error (classifyInformation m)) ∧
    (dictGet data "Error Message" = none →
      dictGet data "Information" = none →
      dictGet data "Note" = some (JsonVal.str m) →
      check_api_errors data = Except.error (classifyNote m)) := by
  refine ⟨fun h1 => ?_, fun h1 h2 => ?_, fun h1 h2 h3 => ?_⟩ <;>
    simp [check_api_errors, msgText, *]

theorem error_priority_order_witness :
    check_api_errors
        [("Error Message", JsonVal.str "Invalid API call for symbol XYZ"),
         ("Note", JsonVal.str "call frequency exceeded, rate limit")] =
      Except.error (ApiError.invalidSymbolError "Invalid API call for symbol XYZ") := by
  have h := (error_priority_order
    [("Error Message", JsonVal.str "Invalid API call for symbol XYZ"),
     ("Note", JsonVal.str "call frequency exceeded, rate limit")]
    "Invalid API call for symbol XYZ").1 rfl
  rw [h]
  rfl

/-- Claim C6: when the first recognized key is `Information`, the call fails with
`APIKeyError` if the text contains `API key`, else with the premium-feature
`AlphaVantageError` if it contains `premium` or `subscription`
case-insensitively, else with the generic `AlphaVantageError` carrying the
text. -/
theorem information_classification (data : RawResponse) (m : String)
    (h1 : dictGet data "Error Message" = none)
    (h2 : dictGet data "Information" = some (JsonVal.str m)) :
    check_api_errors data = Except.error (classifyInformation m) ∧
    (hasSubstr m "API key" = true →
      classifyInformation m = ApiError.apiKeyError m) ∧
    (hasSubstr m "API key" = false →
      (hasSubstr (lowerStr m) "premium" || hasSubstr (lowerStr m) "subscription") = true →
      classifyInformation m = ApiError.alphaVantageError ("Premium feature required: " ++ m)) ∧
    (hasSubstr m "API key" = false →
      (hasSubstr (lowerStr m) "premium" || hasSubstr (lowerStr m) "subscription") = false →
      classifyInformation m = ApiError.alphaVantageError m) := by
  refine ⟨by simp [check_api_errors, msgText, h1, h2], fun ha => ?_, fun ha hp => ?_,
    fun ha hp => ?_⟩
  · simp [classifyInformation, ha]
  · simp [classifyInformation, ha, hp]
  · simp [classifyInformation, ha, hp]

theorem information_classification_witness :
    check_api_errors [("Information", JsonVal.str "please check your API key")] =
      Except.error (ApiError.apiKeyError "please check your API key") := by
  have h := information_classification
    [("Information", JsonVal.str "please check your API key")]
    "please check your API key" rfl rfl
  rw [h.1, h.2.1 rfl]

/-- Claim C3 counterexample: for a Query that already carries an `apikey` entry,
the dispatched parameter dict is not the input plus one additional
credential field — the existing entry is overwritten in place instead. -/
theorem dispatch_overwrites_existing_apikey :
    (make_request { api_key := "fresh", rate_limit_delay := 12, last_request_time := 0 }
        [("function", "GLOBAL_QUOTE"), ("apikey", "stale")] 0 Transport.timeout).2.1 ≠
      [("function", "GLOBAL_QUOTE"), ("apikey", "stale"), ("apikey", "fresh")] := by
  decide

/-- Claim C3 amended: for every Query that does not already contain the
credential key `apikey` — which the data-model invariant guarantees for
caller-built queries — the dispatched parameter dict is exactly the input
entries plus one trailing `("apikey", key)` entry; the input, copied before
mutation, is left unmodified. -/
theorem dispatched_params_appends_apikey (st : ClientState)
    (params : List (String × String)) (t2 : ℚ) (tr : Transport)
    (h : ∀ kv ∈ params, kv.1 ≠ "apikey") :
    (make_request st params t2 tr).2.1 = params ++ [("apikey", st.api_key)] := by
  have hany : params.any (fun kv => kv.1 = "apikey") = false := by
    rw [Bool.eq_false_iff]
    intro hcontra
    rcases List.any_eq_true.mp hcontra with ⟨kv, hmem, hk⟩
    exact h kv hmem (by simpa using hk)
  simp [make_request, dispatched_params, dictSet, hany]

theorem dispatched_params_appends_apikey_witness :
    (make_request { api_key := "demo", rate_limit_delay := 12, last_request_time := 0 }
        [("function", "TIME_SERIES_DAILY"), ("symbol", "IBM")] 0 Transport.timeout).2.1 =
      [("function", "TIME_SERIES_DAILY"), ("symbol", "IBM"), ("apikey", "demo")] :=
  dispatched_params_appends_apikey _ _ _ _ (by decide)

/-- Claim C4: whenever the second clock reading `t2` respects the sleep chosen by
`_rate_limit` after a first reading `t1` (the sleep really lasts at least the
requested duration, and the clock does not go backwards), the newly recorded
dispatch timestamp is at least `rate_limit_delay` after the previous one; the
timestamp is set to the pre-dispatch reading `t2`, and the updated state is
the same whatever the dispatch outcome, so a failed dispatch also consumes a
throttle slot. -/
theorem rate_limit_spacing (st : ClientState) (params : List (String × String))
    (t1 t2 : ℚ) (tr : Transport)
    (hsleep : t1 + rate_limit_sleep st.rate_limit_delay st.last_request_time t1 ≤ t2) :
    st.rate_limit_delay ≤
      (make_request st params t2 tr).1.last_request_time - st.last_request_time ∧
    (make_request st params t2 tr).1.last_request_time = t2 ∧
    (make_request st params t2 tr).1 = (make_request st params t2 Transport.timeout).1 := by
  refine ⟨?_, rfl, rfl⟩
  show st.rate_limit_delay ≤ t2 - st.last_request_time
  unfold rate_limit_sleep at hsleep
  split at hsleep <;> linarith

theorem rate_limit_spacing_witness :
    (12 : ℚ) ≤
      (make_request { api_key := "k", rate_limit_delay := 12, last_request_time := 100 }
          [] 112 Transport.timeout).1.last_request_time - 100 :=
  (rate_limit_spacing { api_key := "k", rate_limit_delay := 12, last_request_time := 100 }
    [] 105 112 Transport.timeout (by norm_num [rate_limit_sleep])).1

/-- Claim C5: a mapping is classified as time series exactly when every value is
itself a mapping and every corresponding key contains `-`, `/` or `:` or has
length at least 8; in particular the empty mapping is classified as time
series (vacuous truth). -/
theorem is_time_series_iff (d : RawResponse) :
    (is_time_series_data d = true ↔
      ∀ kv ∈ d, isDict kv.2 = true ∧
        (kv.1.toList.contains '-' = true ∨ kv.1.toList.contains '/' = true ∨
          kv.1.toList.contains ':' = true ∨ 8 ≤ kv.1.length)) ∧
    is_time_series_data [] = true := by
  refine ⟨?_, rfl⟩
  simp only [is_time_series_data, List.all_eq_true, Bool.and_eq_true, looksLikeDateKey,
    Bool.or_eq_true, decide_eq_true_eq]
  constructor
  · intro h kv hm
    have := h kv hm
    tauto
  · intro h kv hm
    have := h kv hm
    tauto

theorem is_time_series_iff_witness :
    is_time_series_data
      [("2023-01-01", JsonVal.dict [("1. open", JsonVal.str "150.00")]),
       ("2023-01-02", JsonVal.dict [("1. open", JsonVal.str "151.00")])] = true :=
  (is_time_series_iff _).1.mpr (by decide)

/-- Claim C10: on a non-empty mapping the time-series and flat classifications are
mutually exclusive: time-series forces every value to be a mapping, which
falsifies the flat test. -/
theorem time_series_flat_exclusive (d : RawResponse) (h : d ≠ []) :
    ¬(is_time_series_data d = true ∧ is_flat_dict d = true) := by
  rintro ⟨hts, hfl⟩
  cases d with
  | nil => exact h rfl
  | cons kv rest =>
    simp only [is_time_series_data, is_flat_dict, List.all_cons, Bool.and_eq_true] at hts hfl
    rw [hts.1.1] at hfl
    exact absurd hfl.1 (by decide)

theorem time_series_flat_exclusive_witness :
    ¬(is_time_series_data [("2023-01-01", JsonVal.dict [])] = true ∧
      is_flat_dict [("2023-01-01", JsonVal.dict [])] = true) :=
  time_series_flat_exclusive _ (List.cons_ne_nil _ _)

/-- Claim C9: structured (JSON) mode is the identity transform — the payload is
returned unchanged. -/
theorem format_json_identity (d : RawResponse) :
    format_output d "json" = Except.ok (FormattedOutput.structuredData d) := rfl

/-- Claim C8: formatting the empty payload in delimited-text (CSV) mode does not
raise; it returns the empty string as the defined empty-table output. -/
theorem format_csv_empty :
    format_output [] "csv" = Except.ok (FormattedOutput.textData "") := rfl

theorem toList_append (a b : String) : (a ++ b).toList = a.toList ++ b.toList :=
  String.data_append a b

theorem takeWhile_append_stop (p : Char → Bool) :
    ∀ l : List Char, (∀ c ∈ l, p c = true) → ∀ x, p x = false → ∀ r : List Char,
      (l ++ x :: r).takeWhile p = l
  | [], _, x, hx, r => by simp [List.takeWhile_cons, hx]
  | c :: cs, hl, x, hx, r => by
    have hc : p c = true := hl c (List.mem_cons_self _ _)
    have ih := takeWhile_append_stop p cs
      (fun d hd => hl d (List.mem_cons_of_mem _ hd)) x hx r
    simp [List.takeWhile_cons, hc, ih]

theorem csvCellChars_of_plain (c : String) (h : needsQuote c = false) :
    csvCellChars c = c.toList := by
  simp [csvCellChars, h]

theorem csvLineChars_eq_joinComma :
    ∀ cells : List String, (∀ c ∈ cells, needsQuote c = false) →
      csvLineChars cells = (joinComma cells).toList
  | [], _ => rfl
  | [c], h => by
    show csvCellChars c = (joinComma [c]).toList
    rw [csvCellChars_of_plain c (h c (by simp))]
    rfl
  | c :: d :: ds, h => by
    have ih := csvLineChars_eq_joinComma (d :: ds) (fun x hx => h x (by simp [hx]))
    show csvCellChars c ++ ',' :: csvLineChars (d :: ds) =
      (c ++ "," ++ joinComma (d :: ds)).toList
    rw [csvCellChars_of_plain c (h c (by simp)), ih, toList_append, toList_append,
      List.append_assoc]
    rfl

theorem plain_cell_no_newline (c : String) (h : needsQuote c = false) :
    ∀ ch ∈ c.toList, ch ≠ '\n' := by
  intro ch hch hEq
  subst hEq
  rw [Bool.eq_false_iff] at h
  apply h
  simp only [needsQuote, List.any_eq_true]
  exact ⟨'\n', hch, by decide⟩

theorem csvLineChars_no_newline :
    ∀ cells : List String, (∀ c ∈ cells, needsQuote c = false) →
      ∀ ch ∈ csvLineChars cells, ch ≠ '\n'
  | [], _ => by intro ch hch; cases hch
  | [c], h => by
    intro ch hch
    rw [show csvLineChars [c] = csvCellChars c from rfl,
      csvCellChars_of_plain c (h c (by simp))] at hch
    exact plain_cell_no_newline c (h c (by simp)) ch hch
  | c :: d :: ds, h => by
    intro ch hch
    rw [show csvLineChars (c :: d :: ds) = csvCellChars c ++ ',' :: csvLineChars (d :: ds)
        from rfl, csvCellChars_of_plain c (h c (by simp))] at hch
    rcases List.mem_append.mp hch with hch | hch
    · exact plain_cell_no_newline c (h c (by simp)) ch hch
    · rcases List.mem_cons.mp hch with hch | hch
      · subst hch; decide
      · exact csvLineChars_no_newline (d :: ds) (fun x hx => h x (by simp [hx])) ch hch

/-- Claim C7 amended: the delimited-text header row derived from the API's own
labels is emitted verbatim — the column-name cleanup is not applied by any
CSV path.  For every time-series payload whose column labels contain no CSV
special character, the first line of `time_series_to_csv` is exactly `date`
followed by the raw inner keys, joined by commas with no cleanup. -/
theorem time_series_header_raw (d : RawResponse)
    (h : ∀ c ∈ "date" :: unionCols d, needsQuote c = false) :
    firstLine (time_series_to_csv d) = joinComma ("date" :: unionCols d) := by
  unfold time_series_to_csv firstLine
  rw [show csvText ((("date" :: unionCols d)) ::
      (sortDescByKey d).map (fun kv => kv.1 :: (unionCols d).map (fun c =>
        match dictGet (innerDict kv.2) c with
        | some v => cellText v
        | none => ""))) =
    (csvLineChars ("date" :: unionCols d) ++ '\n' ::
      csvTextChars ((sortDescByKey d).map (fun kv =>
        kv.1 :: (unionCols d).map (fun c =>
          match dictGet (innerDict kv.2) c with
          | some v => cellText v
          | none => "")))).asString from rfl]
  rw [List.toList_asString]
  rw [takeWhile_append_stop _ _
    (fun c hc => decide_eq_true (csvLineChars_no_newline ("date" :: unionCols d) h c hc))
    '\n' (by decide) _]
  rw [csvLineChars_eq_joinComma ("date" :: unionCols d) h]
  exact String.asString_toList _

theorem time_series_header_raw_witness :
    firstLine (time_series_to_csv
      [("2023-01-01", JsonVal.dict [("1. open", JsonVal.str "150.00"),
        ("4. close", JsonVal.str "155.00")])]) =
      joinComma ["date", "1. open", "4. close"] :=
  time_series_header_raw _ (by decide)

/-- Claim C7 counterexample: on the spec's own example payload the emitted header
row keeps the API's prefixed labels; the column-name cleanup, which would
produce `date,open,close`, is not applied. -/
theorem csv_header_not_cleaned :
    firstLine (convert_to_csv [("2023-01-01", JsonVal.dict
      [("1. open", JsonVal.str "150.00"), ("4. close", JsonVal.str "155.00")])]) =
      "date,1. open,4. close" ∧
    clean_column_names ["date", "1. open", "4. close"] = ["date", "open", "close"] ∧
    ("date,1. open,4. close" : String) ≠
      joinComma (clean_column_names ["date", "1. open", "4. close"]) := by
  refine ⟨rfl, rfl, ?_⟩
  decide
